import Mathlib

/-!
Verification of the CSV → SQL Server script generator
(`csv_to_mssql_sql.py`): a shallow embedding of its data model and
operations, with theorems settling the specification's claims about
delimiter sniffing, type inference, value rendering, identifier quoting,
insert batching and the assembled output.

Conventions of the embedding: the script works over a pandas DataFrame,
modelled here as named columns (`Series`: a dtype plus a list of cells)
together with a row view (each row a list of cells in column order, the
order `df.iterrows()` yields).  Python strings are Lean `String`s; the
text-level helpers work on `String.data` (the list of characters), which
matches Python's per-character semantics for the operations the script
uses (`str.replace` with a one-character pattern, membership tests,
`str.count`).
-/

namespace Csv2Sql

/-- A Python value a cell takes somewhere in the program.  The first five
constructors are the native values: `None`/`NaN` (both rendered NULL), a
Python int, a Python float (carrying the string `str(value)` would print,
the only aspect of a float the script ever uses), a Python bool, a Python
str.  The last three are the numpy scalars `df.iterrows()` hands to
`quote_value` when the unified row dtype stays numeric: `np.int64`, which
in Python 3 is NOT an instance of `int` (nor of `float`); `np.float64`,
which IS an instance of `float`; and `np.bool_`, an instance of neither. -/
inductive Cell where
  | null
  | int (n : Int)
  | float (r : String)
  | bool (b : Bool)
  | str (s : String)
  | npInt (n : Int)
  | npFloat (r : String)
  | npBool (b : Bool)
deriving DecidableEq, Repr

/-- A pandas column dtype, restricted to the dtypes the script's
`detect_type` distinguishes. -/
inductive Dtype where
  | int64
  | float64
  | bool
  | datetime64
  | object
deriving DecidableEq, Repr

/-- A pandas Series: its dtype and its cells in row order. -/
structure Series where
  dtype : Dtype
  cells : List Cell
deriving DecidableEq, Repr

/-- A DataFrame as `build_create_table` consumes it: the named columns in
order (`df.columns` with `df[col]`). -/
structure DataFrame where
  cols : List (String × Series)
deriving DecidableEq, Repr

/-- The script's `SQL_TYPE_MAP` dictionary, verbatim. -/
def SQL_TYPE_MAP : List (String × String) :=
  [("int", "BIGINT"),
   ("float", "FLOAT"),
   ("bool", "BIT"),
   ("datetime", "DATETIME2"),
   ("date", "DATE"),
   ("time", "TIME"),
   ("string", "NVARCHAR(MAX)")]

/-- Dictionary access `SQL_TYPE_MAP[k]` (total on the keys the script
uses). -/
def sqlType (k : String) : String := (SQL_TYPE_MAP.lookup k).getD ""

/-- The single-quote character. -/
def squote : Char := '\''

/-- Decimal digits of a natural number, least significant first, with
structural fuel so the kernel can evaluate it. -/
def natDigitsRevFuel : Nat → Nat → List Char
  | 0, _ => []
  | fuel + 1, n =>
    if n < 10 then [Char.ofNat (48 + n)]
    else Char.ofNat (48 + n % 10) :: natDigitsRevFuel fuel (n / 10)

/-- Decimal digits of a natural number, least significant first.  The
fuel n + 1 always suffices: the argument drops by a factor of ten per
digit. -/
def natDigitsRev (n : Nat) : List Char :=
  natDigitsRevFuel (n + 1) n

/-- Python `str()` of an int: decimal digits, a leading minus when
negative. -/
def intStr (i : Int) : String :=
  if i < 0 then String.mk ('-' :: (natDigitsRev i.natAbs).reverse)
  else String.mk (natDigitsRev i.natAbs).reverse

/-- Python `s.replace("'", "''")`: the pattern is a single character, so
every occurrence is replaced independently, doubling each quote. -/
def escList : List Char → List Char
  | [] => []
  | c :: cs => if c = squote then c :: c :: escList cs else c :: escList cs

/-- Inverse of quote doubling: collapses each doubled quote back to one
(the unescaping a SQL reader performs inside a string literal). -/
def unescList : List Char → List Char
  | [] => []
  | [c] => [c]
  | c1 :: c2 :: rest =>
    if c1 = squote ∧ c2 = squote then squote :: unescList rest
    else c1 :: unescList (c2 :: rest)

/-- The script's `quote_value`, mirroring its isinstance guards on the
runtime value: None/NaN become the NULL keyword; a Python int renders via
`str(int(val))` and a Python bool, being an int instance
(`isinstance(True, int)`), renders 1 or 0; a Python float and an
`np.float64` (a float subclass) render via `str(val)`; an `np.int64` is
NOT an int or float instance, so like an `np.bool_` and any str it falls
to the string branch: `str(val)` with every single quote doubled, wrapped
`N'...'`. -/
def quote_value : Cell → String
  | .null => "NULL"
  | .int n => intStr n
  | .float r => r
  | .bool b => if b then "1" else "0"
  | .str s => "N'" ++ String.mk (escList s.data) ++ "'"
  | .npInt n => "N'" ++ String.mk (escList (intStr n).data) ++ "'"
  | .npFloat r => r
  | .npBool b => "N'" ++ String.mk (escList (if b then "True" else "False").data) ++ "'"

/-- Python `name.replace("]", "]]")`: the pattern is a single character,
so every closing bracket is doubled independently. -/
def escBracketList : List Char → List Char
  | [] => []
  | c :: cs => if c = ']' then c :: c :: escBracketList cs else c :: escBracketList cs

/-- The script's `bracket_ident`: wrap the name in brackets, doubling any
closing bracket inside it. -/
def bracket_ident (name : String) : String :=
  "[" ++ String.mk (escBracketList name.data) ++ "]"

/-- Exceptions that file reading or `csv.Sniffer().sniff` can raise. -/
inductive PyExn where
  | fileNotFound
  | unicodeDecodeError
  | sniffError
deriving DecidableEq, Repr

/-- The script's `sniff_delimiter`.  The `open`/`f.read(2048)` stands
OUTSIDE the try block, so a failure to read or decode the sample
propagates to the caller; only the `csv.Sniffer().sniff` call is guarded,
its `except Exception` returning the default comma.  The reader and the
sniffer are external collaborators, passed as the outcome of the read and
the sniffing function. -/
def sniff_delimiter (readSample : Except PyExn String)
    (sniff : String → Except PyExn Char) : Except PyExn Char :=
  match readSample with
  | .error e => .error e
  | .ok sample =>
    match sniff sample with
    | .ok d => .ok d
    | .error _ => .ok ','

/-- The script's `looks_like_date`: the string holds a dash or a slash,
and at least one digit. -/
def looks_like_date (s : String) : Bool :=
  (s.data.contains '-' || s.data.contains '/') && s.data.any Char.isDigit

/-- The script's `looks_like_time`: `s.count(":") >= 1` and at least one
digit. -/
def looks_like_time (s : String) : Bool :=
  (decide (1 ≤ s.data.count ':')) && s.data.any Char.isDigit

/-- Python `str()` on a non-null cell (`astype(str)` applied after
`dropna()`), `none` on None/NaN. -/
def pyStr : Cell → Option String
  | .null => none
  | .int n => some (intStr n)
  | .float r => some r
  | .bool b => some (if b then "True" else "False")
  | .str s => some s
  | .npInt n => some (intStr n)
  | .npFloat r => some r
  | .npBool b => some (if b then "True" else "False")

/-- The bounded heuristic sample of `detect_type`:
`series.dropna().astype(str).head(100)`. -/
def sample_non_null (s : Series) : List String :=
  (s.cells.filterMap pyStr).take 100

/-- The script's `detect_type`.  The dtype checks come first; an object
column goes through the date/time heuristics over the bounded sample.
`mean() > 0.9` over the boolean map is the exact rational comparison
`matches / size > 9/10`, written cross-multiplied (for samples of at most
100 booleans the float64 mean comparison and the rational one agree: the
nearest fraction above 9/10 with denominator at most 100 is 82/91, far
beyond one ulp of 0.9). -/
def detect_type (s : Series) : String :=
  match s.dtype with
  | .int64 => sqlType "int"
  | .float64 => sqlType "float"
  | .bool => sqlType "bool"
  | .datetime64 => sqlType "datetime"
  | .object =>
    if 0 < (sample_non_null s).length ∧
        9 * (sample_non_null s).length <
          10 * (sample_non_null s).countP looks_like_date then
      sqlType "date"
    else if 0 < (sample_non_null s).length ∧
        9 * (sample_non_null s).length <
          10 * (sample_non_null s).countP looks_like_time then
      sqlType "time"
    else sqlType "string"

/-- The default of the script's `--na` flag. -/
def DEFAULT_NA : List String := ["", "NA", "NaN", "null", "NULL"]

/-- Strip one leading sign character, as a numeric parser does. -/
def splitSign (l : List Char) : List Char :=
  match l with
  | c :: cs => if c = '-' || c = '+' then cs else l
  | [] => []

/-- Whether the text is an integer literal: an optional sign then one or
more decimal digits. -/
def isIntString (s : String) : Bool :=
  let l := splitSign s.data
  !l.isEmpty && l.all Char.isDigit

/-- Value of a digit list read most-significant first. -/
def parseNatDigits (l : List Char) : Nat :=
  l.foldl (fun a c => 10 * a + (c.toNat - 48)) 0

/-- The integer an integer literal denotes. -/
def parseIntString (s : String) : Int :=
  match s.data with
  | [] => 0
  | c :: cs =>
    if c = '-' then -(parseNatDigits cs : Int)
    else if c = '+' then (parseNatDigits cs : Int)
    else (parseNatDigits (c :: cs) : Int)

/-- Split a numeric literal at the first exponent marker `e`/`E`. -/
def splitAtExp : List Char → List Char × Option (List Char)
  | [] => ([], none)
  | c :: cs =>
    if c = 'e' || c = 'E' then ([], some cs)
    else
      let p := splitAtExp cs
      (c :: p.1, p.2)

/-- A mantissa: digits, optionally with one decimal point, at least one
digit overall. -/
def isMantissa (l : List Char) : Bool :=
  let d1 := l.takeWhile Char.isDigit
  let r1 := l.dropWhile Char.isDigit
  match r1 with
  | [] => !d1.isEmpty
  | c :: rest =>
    c = '.' && rest.all Char.isDigit && (!d1.isEmpty || !rest.isEmpty)

/-- An exponent part: an optional sign then one or more digits. -/
def isExpPart (l : List Char) : Bool :=
  let l2 := splitSign l
  !l2.isEmpty && l2.all Char.isDigit

/-- Whether the text is a floating-point literal
(sign? mantissa (e|E sign? digits)?). -/
def isFloatString (s : String) : Bool :=
  let l := splitSign s.data
  match splitAtExp l with
  | (m, none) => isMantissa m
  | (m, some e) => isMantissa m && isExpPart e

/-- The boolean literals pandas recognises while parsing. -/
def BOOL_LITS : List String := ["True", "False", "TRUE", "FALSE"]

/-- Simplified model of `str()` on the float a numeric string parses to:
only its presence and pass-through matter to the claims, never its exact
spelling, so a string-level normalisation (append `.0` to a bare integer
literal) stands in for binary64 formatting. -/
def pyFloatRepr (s : String) : String :=
  if s.data.contains '.' || s.data.contains 'e' || s.data.contains 'E' then s
  else s ++ ".0"

/-- NA substitution during load: a raw value listed in `na` becomes NaN
(`none`), anything else is kept. -/
def naSubst (na raw : List String) : List (Option String) :=
  raw.map (fun s => if na.contains s then none else some s)

/-- The non-null values of a column after NA substitution. -/
def nonNullOf (na raw : List String) : List String :=
  (naSubst na raw).filterMap id

/-- Models the external collaborator `pandas.read_csv` typing one column
(the script loads the whole CSV through it before `detect_type` runs):
raw values listed in `na` become NaN; a column of integer literals with
no NaN gets dtype int64; integer literals alongside NaN are upcast to
float64, because NaN is a float an int64 column cannot hold; float
literals give float64, as does an all-NaN column; True/False literals
without NaN give bool; a zero-row column, and any other mix, is object
with the values kept as strings.  Integer literals beyond the int64
range and special float literals (inf, Infinity) are outside the model. -/
def read_csv_column (raw : List String) (na : List String) : Series :=
  if raw.isEmpty then ⟨.object, []⟩
  else if (nonNullOf na raw).isEmpty then
    ⟨.float64, (naSubst na raw).map (fun _ => Cell.null)⟩
  else if (nonNullOf na raw).all isIntString then
    if (naSubst na raw).all Option.isSome then
      ⟨.int64, (nonNullOf na raw).map (fun s => Cell.int (parseIntString s))⟩
    else
      ⟨.float64, (naSubst na raw).map (fun o =>
        match o with
        | none => Cell.null
        | some s => Cell.float (intStr (parseIntString s) ++ ".0"))⟩
  else if (nonNullOf na raw).all isFloatString then
    ⟨.float64, (naSubst na raw).map (fun o =>
      match o with
      | none => Cell.null
      | some s => Cell.float (pyFloatRepr s))⟩
  else if (nonNullOf na raw).all (fun s => BOOL_LITS.contains s)
      && (naSubst na raw).all Option.isSome then
    ⟨.bool, (nonNullOf na raw).map (fun s => Cell.bool (s = "True" || s = "TRUE"))⟩
  else
    ⟨.object, (naSubst na raw).map (fun o =>
      match o with
      | none => Cell.null
      | some s => Cell.str s)⟩

/-- The column list of the CREATE TABLE statement: for each column its
bracket-quoted identifier and detected type, joined by commas. -/
def cols_joined (df : DataFrame) : String :=
  String.intercalate ",\n    "
    (df.cols.map (fun c => bracket_ident c.1 ++ " " ++ detect_type c.2))

/-- The script's `build_create_table`: the conditional drop (the table
name spliced RAW into the `N'...'` literal and after DROP TABLE), then
CREATE TABLE with the computed column list. -/
def build_create_table (df : DataFrame) (table_name : String) : String :=
  "IF OBJECT_ID(N'" ++ table_name ++ "', N'U') IS NOT NULL DROP TABLE " ++
    table_name ++ ";\nGO\nCREATE TABLE " ++ table_name ++ " (\n    " ++
    cols_joined df ++ "\n);\nGO"

/-- Models the dtype `df.iterrows()` gives each row Series: the frame's
column dtypes unified by numpy promotion (`DataFrame.values`), for the
dtypes this pipeline can produce: any object column makes the row object;
otherwise a float64 column upcasts everything to float64; otherwise an
int64 column (bools promote into it) gives int64; an all-bool frame stays
bool.  datetime64 never arises here (`read_csv` without `parse_dates`)
and is conservatively sent to object, as is a zero-column frame. -/
def rowDtype (dts : List Dtype) : Dtype :=
  if dts.isEmpty then Dtype.object
  else if dts.contains Dtype.object || dts.contains Dtype.datetime64 then
    Dtype.object
  else if dts.contains Dtype.float64 then Dtype.float64
  else if dts.contains Dtype.int64 then Dtype.int64
  else Dtype.bool

/-- The runtime value `row[c]` yields for a stored cell once
`df.iterrows()` has unified the row to dtype `rd`: an object row boxes
numeric cells to native Python values (`astype(object)` calls `item()`),
an int64 row keeps `np.int64` scalars, a float64 row upcasts ints and
bools to `np.float64` (whose `str` gains a `.0`), NaN stays NaN, and an
all-bool row keeps `np.bool_`.  Pairs a well-formed frame cannot produce
(e.g. a str cell in a numeric row) pass through unchanged. -/
def iterrows_val (rd : Dtype) : Cell → Cell
  | .null => .null
  | c =>
    match rd, c with
    | .object, c => c
    | .int64, .int n => .npInt n
    | .int64, .bool b => .npInt (if b then 1 else 0)
    | .float64, .int n => .npFloat (intStr n ++ ".0")
    | .float64, .float r => .npFloat r
    | .float64, .bool b => .npFloat (if b then "1.0" else "0.0")
    | .bool, .bool b => .npBool b
    | _, c => c

/-- The batching loop of `build_inserts`: rows are appended to the
current batch; once the batch reaches `batch_size` it is flushed, and a
final nonempty batch is flushed after the loop. -/
def batchLoop (B : Nat) : List α → List α → List (List α)
  | [], batch => if batch.isEmpty then [] else [batch]
  | r :: rs, batch =>
    let b2 := batch ++ [r]
    if B ≤ b2.length then b2 :: batchLoop B rs [] else batchLoop B rs b2

/-- The batches `build_inserts` emits, in order. -/
def buildBatches (B : Nat) (rows : List α) : List (List α) :=
  batchLoop B rows []

/-- One parenthesized value tuple:
`"(" + ", ".join(quote_value(row[c]) for c) + ")"`. -/
def rowTuple (row : List Cell) : String :=
  "(" ++ String.intercalate ", " (row.map quote_value) ++ ")"

/-- One multi-row INSERT statement for a batch (the table name again
spliced raw). -/
def insert_statement (table_name col_idents : String)
    (batch : List (List Cell)) : String :=
  "INSERT INTO " ++ table_name ++ " (" ++ col_idents ++ ") VALUES\n" ++
    String.intercalate ",\n" (batch.map rowTuple) ++ ";\nGO"

/-- The INSERT statements of `build_inserts`, one per batch, in emission
order.  `rows` is the row view of the DataFrame: `df.iterrows()` yields
the rows in order and `[quote_value(row[c]) for c in df.columns]` reads
each row's cells in column order, each cell already the runtime value
`row[c]` returns (`iterrows_val` under the frame's `rowDtype`). -/
def insert_statements (rows : List (List Cell)) (table_name col_idents : String)
    (B : Nat) : List String :=
  (buildBatches B rows).map (insert_statement table_name col_idents)

/-- The script's `build_inserts`: the statements joined by newlines (the
empty row list yields the empty string). -/
def build_inserts (rows : List (List Cell)) (colNames : List String)
    (table_name : String) (B : Nat) : String :=
  String.intercalate "\n"
    (insert_statements rows table_name
      (String.intercalate ", " (colNames.map bracket_ident)) B)

/-- pandas `df.head(n)`: the first n rows when n is nonnegative, all but
the last |n| rows when n is negative. -/
def df_head (n : Int) (rows : List α) : List α :=
  if 0 ≤ n then rows.take n.toNat
  else rows.take (rows.length - (-n).toNat)

/-- The row-limit step of `main`: `if args.limit: df = df.head(args.limit)`.
Python truthiness makes both an absent flag and a limit of 0 skip the
`head` call. -/
def apply_limit (limit : Option Int) (rows : List α) : List α :=
  match limit with
  | none => rows
  | some n => if n ≠ 0 then df_head n rows else rows

/-- The text `main` writes to the output file: the two banner comments,
the CREATE TABLE block, a blank line, then either the no-rows comment
(when `len(df) == 0`) or the INSERT blocks.  `df` is the column view and
`rows` the `df.iterrows()` view of the same loaded frame. -/
def output_text (df : DataFrame) (rows : List (List Cell))
    (table_name srcName : String) : String :=
  "-- Generated for SQL Server (SSMS)\n" ++ "-- Source: " ++ srcName ++
    "\n\n" ++ build_create_table df table_name ++ "\n\n" ++
    (if rows.length = 0 then "-- No rows to insert.\n"
     else build_inserts rows (df.cols.map (fun c => c.1)) table_name 1000)

/-- Well-formedness tying a dtype to the cells it can hold, as loading
guarantees: int64 holds ints, float64 floats or NaN, bool bools, object
strings or NaN (the script never builds a datetime64 column). -/
def cellMatches (dt : Dtype) : Cell → Bool :=
  fun c =>
    match dt, c with
    | .int64, .int _ => true
    | .float64, .float _ => true
    | .float64, .null => true
    | .bool, .bool _ => true
    | .object, .str _ => true
    | .object, .null => true
    | _, _ => false

/-- A well-formed Series: every cell fits the dtype. -/
def WFSeries (s : Series) : Prop :=
  ∀ c ∈ s.cells, cellMatches s.dtype c = true

instance (s : Series) : Decidable (WFSeries s) := by
  unfold WFSeries
  infer_instance

/-! ## Helper lemmas -/

theorem naSubst_of_no_na {na raw : List String}
    (h : ∀ s ∈ raw, s ∉ na) : naSubst na raw = raw.map some := by
  unfold naSubst
  exact List.map_congr_left (fun s hs => by simp [h s hs])

theorem nonNullOf_of_no_na {na raw : List String}
    (h : ∀ s ∈ raw, s ∉ na) : nonNullOf na raw = raw := by
  rw [nonNullOf, naSubst_of_no_na h]
  simp [List.filterMap_map]

theorem naSubst_of_all_na {na raw : List String}
    (h : ∀ s ∈ raw, s ∈ na) :
    naSubst na raw = raw.map (fun _ => none) := by
  unfold naSubst
  exact List.map_congr_left (fun s hs => by simp [h s hs])

theorem nonNullOf_of_all_na {na raw : List String}
    (h : ∀ s ∈ raw, s ∈ na) : nonNullOf na raw = [] := by
  rw [nonNullOf, naSubst_of_all_na h]
  simp [List.filterMap_map]

theorem mem_nonNullOf {na raw : List String} {x : String} :
    x ∈ nonNullOf na raw ↔ x ∈ raw ∧ x ∉ na := by
  simp only [nonNullOf, naSubst, List.mem_filterMap, List.mem_map, id_eq]
  constructor
  · rintro ⟨o, ⟨s, hs, ho⟩, hox⟩
    subst ho
    by_cases hc : s ∈ na
    · simp [hc] at hox
    · simp [hc] at hox
      subst hox
      exact ⟨hs, hc⟩
  · rintro ⟨hx, hc⟩
    refine ⟨some x, ⟨x, hx, ?_⟩, rfl⟩
    simp [hc]

theorem naSubst_all_isSome {na raw : List String} :
    (naSubst na raw).all Option.isSome = true ↔ ∀ s ∈ raw, s ∉ na := by
  simp only [naSubst, List.all_eq_true, List.mem_map]
  constructor
  · intro h s hs
    have h2 := h _ ⟨s, hs, rfl⟩
    by_cases hc : s ∈ na
    · simp [hc] at h2
    · exact hc
  · rintro h o ⟨s, hs, rfl⟩
    simp [h s hs]

theorem read_csv_column_empty (na : List String) :
    read_csv_column [] na = ⟨.object, []⟩ := rfl

theorem read_csv_column_int {raw na : List String} (h1 : raw ≠ [])
    (hno : ∀ s ∈ raw, s ∉ na) (hint : ∀ s ∈ raw, isIntString s = true) :
    read_csv_column raw na =
      ⟨.int64, raw.map (fun s => Cell.int (parseIntString s))⟩ := by
  have hA : raw.isEmpty = false := by simpa [List.isEmpty_iff] using h1
  have hNN : nonNullOf na raw = raw := nonNullOf_of_no_na hno
  have hS : (naSubst na raw).all Option.isSome = true :=
    naSubst_all_isSome.mpr hno
  rw [read_csv_column]
  simp only [hA, Bool.false_eq_true, if_false, hNN, hS, if_true,
    List.all_eq_true.mpr hint]

theorem read_csv_column_int_na {raw na : List String}
    (hmix : ∃ s ∈ raw, s ∈ na) (hsome : ∃ s ∈ raw, s ∉ na)
    (hint : ∀ s ∈ raw, s ∉ na → isIntString s = true) :
    (read_csv_column raw na).dtype = .float64 := by
  obtain ⟨m, hm, hmna⟩ := hmix
  obtain ⟨w, hw, hwna⟩ := hsome
  have h1 : raw ≠ [] := List.ne_nil_of_mem hm
  have hA : raw.isEmpty = false := by simpa [List.isEmpty_iff] using h1
  have hwNN : w ∈ nonNullOf na raw := mem_nonNullOf.mpr ⟨hw, hwna⟩
  have hNN : (nonNullOf na raw).isEmpty = false := by
    simpa [List.isEmpty_iff] using List.ne_nil_of_mem hwNN
  have hall : (nonNullOf na raw).all isIntString = true :=
    List.all_eq_true.mpr (fun x hx =>
      hint x (mem_nonNullOf.mp hx).1 (mem_nonNullOf.mp hx).2)
  have hS : (naSubst na raw).all Option.isSome = false := by
    rw [Bool.eq_false_iff]
    intro hcon
    exact (naSubst_all_isSome.mp hcon) m hm hmna
  rw [read_csv_column]
  simp only [hA, Bool.false_eq_true, if_false, hNN, hall, hS, if_true]

theorem read_csv_column_all_na {raw na : List String} (h1 : raw ≠ [])
    (hall : ∀ s ∈ raw, s ∈ na) :
    read_csv_column raw na = ⟨.float64, raw.map (fun _ => Cell.null)⟩ := by
  have hA : raw.isEmpty = false := by simpa [List.isEmpty_iff] using h1
  have hNN : nonNullOf na raw = [] := nonNullOf_of_all_na hall
  rw [read_csv_column]
  simp only [hA, Bool.false_eq_true, if_false, hNN, List.isEmpty_nil, if_true,
    naSubst, List.map_map]
  rfl

theorem wf_mk {dt : Dtype} {cells : List Cell}
    (h : ∀ c ∈ cells, cellMatches dt c = true) :
    WFSeries ⟨dt, cells⟩ := h

theorem read_csv_column_wf (raw na : List String) :
    WFSeries (read_csv_column raw na) := by
  rw [read_csv_column]
  by_cases hA : raw.isEmpty = true
  · rw [if_pos hA]
    exact wf_mk (by simp)
  · rw [if_neg hA]
    by_cases hB : (nonNullOf na raw).isEmpty = true
    · rw [if_pos hB]
      refine wf_mk ?_
      intro c hc
      obtain ⟨o, _, rfl⟩ := List.mem_map.mp hc
      rfl
    · rw [if_neg hB]
      by_cases hC : (nonNullOf na raw).all isIntString = true
      · rw [if_pos hC]
        by_cases hD : (naSubst na raw).all Option.isSome = true
        · rw [if_pos hD]
          refine wf_mk ?_
          intro c hc
          obtain ⟨s, _, rfl⟩ := List.mem_map.mp hc
          rfl
        · rw [if_neg hD]
          refine wf_mk ?_
          intro c hc
          obtain ⟨o, _, rfl⟩ := List.mem_map.mp hc
          cases o <;> rfl
      · rw [if_neg hC]
        by_cases hE : (nonNullOf na raw).all isFloatString = true
        · rw [if_pos hE]
          refine wf_mk ?_
          intro c hc
          obtain ⟨o, _, rfl⟩ := List.mem_map.mp hc
          cases o <;> rfl
        · rw [if_neg hE]
          by_cases hF : ((nonNullOf na raw).all (fun s => BOOL_LITS.contains s)
              && (naSubst na raw).all Option.isSome) = true
          · rw [if_pos hF]
            refine wf_mk ?_
            intro c hc
            obtain ⟨s, _, rfl⟩ := List.mem_map.mp hc
            rfl
          · rw [if_neg hF]
            refine wf_mk ?_
            intro c hc
            obtain ⟨o, _, rfl⟩ := List.mem_map.mp hc
            cases o <;> rfl

theorem detect_type_of_float {s : Series} (h : s.dtype = .float64) :
    detect_type s = "FLOAT" := by
  obtain ⟨dt, cells⟩ := s
  change dt = Dtype.float64 at h
  subst h
  rfl

theorem isDigit_ofNat_of_lt (d : Nat) (h : d < 10) :
    (Char.ofNat (48 + d)).isDigit = true := by
  interval_cases d <;> decide

theorem natDigitsRevFuel_all_digits (f : Nat) :
    ∀ n, ∀ c ∈ natDigitsRevFuel f n, c.isDigit = true := by
  induction f with
  | zero => intro n c hc; simp [natDigitsRevFuel] at hc
  | succ f ih =>
    intro n c hc
    rw [natDigitsRevFuel] at hc
    split at hc
    · simp only [List.mem_singleton] at hc
      subst hc
      exact isDigit_ofNat_of_lt n (by omega)
    · simp only [List.mem_cons] at hc
      rcases hc with rfl | hc
      · exact isDigit_ofNat_of_lt (n % 10) (Nat.mod_lt _ (by omega))
      · exact ih (n / 10) c hc

theorem natDigitsRev_all_digits (n : Nat) :
    ∀ c ∈ natDigitsRev n, c.isDigit = true :=
  fun c hc => natDigitsRevFuel_all_digits (n + 1) n c hc

theorem intStr_chars (i : Int) :
    ∀ c ∈ (intStr i).data, c.isDigit = true ∨ c = '-' := by
  rw [intStr]
  split <;> intro c hc
  · rcases List.mem_cons.mp hc with rfl | hc2
    · exact Or.inr rfl
    · exact Or.inl (natDigitsRev_all_digits _ c (List.mem_reverse.mp hc2))
  · exact Or.inl (natDigitsRev_all_digits _ c (List.mem_reverse.mp hc))

theorem escList_eq_nil {l : List Char} (h : escList l = []) : l = [] := by
  cases l with
  | nil => rfl
  | cons c cs => by_cases hc : c = squote <;> simp [escList, hc] at h

theorem unescList_escList (l : List Char) : unescList (escList l) = l := by
  induction l with
  | nil => rfl
  | cons c cs ih =>
    by_cases hc : c = squote
    · subst hc
      simpa [escList, unescList] using ih
    · cases h : escList cs with
      | nil =>
        have hnil : cs = [] := escList_eq_nil h
        subst hnil
        simp [escList, unescList, hc]
      | cons d rest =>
        have : unescList (c :: d :: rest) = c :: unescList (d :: rest) := by
          simp [unescList, hc]
        simp only [escList, if_neg hc, h, this]
        rw [← h, ih]

theorem escList_count (l : List Char) :
    (escList l).count squote = 2 * l.count squote := by
  induction l with
  | nil => rfl
  | cons c cs ih =>
    by_cases hc : c = squote <;>
      simp [escList, hc, List.count_cons, ih] <;> omega

theorem batchLoop_flatten (B : Nat) (rs : List α) :
    ∀ batch, batch.length < B → (batchLoop B rs batch).flatten = batch ++ rs := by
  induction rs with
  | nil =>
    intro batch _
    cases batch <;> simp [batchLoop]
  | cons r rs ih =>
    intro batch hlt
    have hB : 0 < B := Nat.lt_of_le_of_lt (Nat.zero_le _) hlt
    by_cases hfull : B ≤ (batch ++ [r]).length
    · simp only [batchLoop, if_pos hfull, List.flatten_cons]
      rw [ih [] hB]
      simp
    · simp only [batchLoop, if_neg hfull]
      rw [ih (batch ++ [r]) (Nat.lt_of_not_le hfull)]
      simp

theorem batchLoop_length (B : Nat) (rs : List α) :
    ∀ batch, batch.length < B →
      (batchLoop B rs batch).length =
        if batch.length + rs.length = 0 then 0
        else (batch.length + rs.length + B - 1) / B := by
  induction rs with
  | nil =>
    intro batch hlt
    cases batch with
    | nil => simp [batchLoop]
    | cons c cs =>
      have hpos : 0 < (c :: cs).length := by simp
      rw [show batchLoop B [] (c :: cs) = [c :: cs] by simp [batchLoop]]
      rw [List.length_singleton, if_neg (by omega)]
      symm
      apply Nat.div_eq_of_lt_le
      · simpa using (by omega : 1 * B ≤ (c :: cs).length + 0 + B - 1)
      · simpa using (by omega : (c :: cs).length + 0 + B - 1 < 2 * B)
  | cons r rs ih =>
    intro batch hlt
    have hB : 0 < B := Nat.lt_of_le_of_lt (Nat.zero_le _) hlt
    have hlb : (batch ++ [r]).length = batch.length + 1 := by simp
    by_cases hfull : B ≤ (batch ++ [r]).length
    · have hlen : batch.length + 1 = B := by omega
      simp only [batchLoop, if_pos hfull]
      rw [List.length_cons, ih [] hB]
      simp only [List.length_nil, Nat.zero_add, List.length_cons]
      have hR : ¬(batch.length + (rs.length + 1) = 0) := by omega
      rw [if_neg hR]
      by_cases hz : rs.length = 0
      · rw [if_pos hz, hz]
        simp only [Nat.zero_add]
        symm
        apply Nat.div_eq_of_lt_le
        · simpa using (by omega : 1 * B ≤ batch.length + (0 + 1) + B - 1)
        · simpa using (by omega : batch.length + (0 + 1) + B - 1 < 2 * B)
      · rw [if_neg hz]
        have he : batch.length + (rs.length + 1) + B - 1 =
            (rs.length + B - 1) + B := by omega
        rw [he, Nat.add_div_right _ hB]
    · have hlt2 : (batch ++ [r]).length < B := Nat.lt_of_not_le hfull
      simp only [batchLoop, if_neg hfull]
      rw [ih (batch ++ [r]) hlt2, hlb]
      simp only [List.length_cons]
      have hL : ¬(batch.length + 1 + rs.length = 0) := by omega
      have hR : ¬(batch.length + (rs.length + 1) = 0) := by omega
      rw [if_neg hL, if_neg hR]
      congr 1
      omega

theorem batchLoop_mem (B : Nat) (rs : List α) :
    ∀ batch, batch.length < B →
      ∀ b ∈ batchLoop B rs batch, b.length ≤ B ∧ b ≠ [] := by
  induction rs with
  | nil =>
    intro batch hlt b hb
    cases batch with
    | nil => simp [batchLoop] at hb
    | cons c cs =>
      have hb2 : b = c :: cs := by simpa [batchLoop] using hb
      subst hb2
      exact ⟨Nat.le_of_lt hlt, by simp⟩
  | cons r rs ih =>
    intro batch hlt b hb
    have hB : 0 < B := Nat.lt_of_le_of_lt (Nat.zero_le _) hlt
    have hlb : (batch ++ [r]).length = batch.length + 1 := by simp
    by_cases hfull : B ≤ (batch ++ [r]).length
    · simp only [batchLoop, if_pos hfull, List.mem_cons] at hb
      rcases hb with rfl | hb
      · exact ⟨by omega, by simp⟩
      · exact ih [] hB b hb
    · simp only [batchLoop, if_neg hfull] at hb
      exact ih (batch ++ [r]) (Nat.lt_of_not_le hfull) b hb

/-! ## Claim theorems -/

/-- C1 counterexample: the column `["1", "NA"]` under the default NA set
has all its non-null values parsing cleanly as integers, with a
null-sentinel alongside, yet inference yields FLOAT — pandas upcasts an
integer column holding NaN to float64 — so the claim's "including when
the column also contains null-sentinel values" part fails. -/
theorem C1_counterexample :
    (∀ s ∈ nonNullOf DEFAULT_NA ["1", "NA"], isIntString s = true) ∧
    detect_type (read_csv_column ["1", "NA"] DEFAULT_NA) = "FLOAT" ∧
    detect_type (read_csv_column ["1", "NA"] DEFAULT_NA) ≠ "BIGINT" := by
  refine ⟨by decide, by decide, by decide⟩

/-- C1 amended: a nonempty column all of whose values parse cleanly as
integers with NO null-sentinel values present infers Integer (BIGINT);
when null sentinels appear alongside otherwise-integer values the column
loads as float64 and infers Float instead. -/
theorem C1_integer_inference (raw na : List String) (h1 : raw ≠ []) :
    ((∀ s ∈ raw, s ∉ na ∧ isIntString s = true) →
      detect_type (read_csv_column raw na) = "BIGINT") ∧
    ((∃ s ∈ raw, s ∈ na) → (∃ s ∈ raw, s ∉ na) →
      (∀ s ∈ raw, s ∉ na → isIntString s = true) →
      detect_type (read_csv_column raw na) = "FLOAT") := by
  constructor
  · intro h
    rw [read_csv_column_int h1 (fun s hs => (h s hs).1) (fun s hs => (h s hs).2)]
    rfl
  · intro hmix hsome hint
    exact detect_type_of_float (read_csv_column_int_na hmix hsome hint)

/-- C1 amended, witnessed at the columns `["7", "8"]` (BIGINT) and
`["1", "NA"]` (FLOAT). -/
theorem C1_integer_inference_witness :
    detect_type (read_csv_column ["7", "8"] DEFAULT_NA) = "BIGINT" ∧
    detect_type (read_csv_column ["1", "NA"] DEFAULT_NA) = "FLOAT" :=
  ⟨(C1_integer_inference ["7", "8"] DEFAULT_NA (by decide)).1 (by decide),
   (C1_integer_inference ["1", "NA"] DEFAULT_NA (by decide)).2
     (by decide) (by decide) (by decide)⟩

/-- C4 counterexample: a nonempty column whose values are all
null-sentinels (`["NA"]`) loads as an all-NaN float64 column, so
inference yields FLOAT, not Text (NVARCHAR(MAX)) as the claim states. -/
theorem C4_counterexample :
    detect_type (read_csv_column ["NA"] DEFAULT_NA) = "FLOAT" ∧
    detect_type (read_csv_column ["NA"] DEFAULT_NA) ≠ "NVARCHAR(MAX)" := by
  refine ⟨by decide, by decide⟩

/-- C4 amended: a zero-row column infers Text (NVARCHAR(MAX)); a nonempty
all-null column loads as float64 and infers FLOAT; in neither case does
the date/time heuristic classify the column (the result is never DATE or
TIME). -/
theorem C4_empty_and_all_null (raw na : List String) (h1 : raw ≠ [])
    (h2 : ∀ s ∈ raw, s ∈ na) :
    detect_type (read_csv_column [] na) = "NVARCHAR(MAX)" ∧
    detect_type (read_csv_column raw na) = "FLOAT" ∧
    detect_type (read_csv_column raw na) ≠ "DATE" ∧
    detect_type (read_csv_column raw na) ≠ "TIME" ∧
    detect_type (read_csv_column [] na) ≠ "DATE" ∧
    detect_type (read_csv_column [] na) ≠ "TIME" := by
  have hf : detect_type (read_csv_column raw na) = "FLOAT" := by
    rw [read_csv_column_all_na h1 h2]
    rfl
  have he : detect_type (read_csv_column [] na) = "NVARCHAR(MAX)" := by
    rw [read_csv_column_empty]
    rfl
  refine ⟨he, hf, ?_, ?_, ?_, ?_⟩ <;> first
    | (rw [hf]; decide)
    | (rw [he]; decide)

/-- C5 helper: detect_type unfolded at an object column. -/
theorem detect_type_object (cells : List Cell) :
    detect_type ⟨.object, cells⟩ =
      (if 0 < (sample_non_null ⟨Dtype.object, cells⟩).length ∧
          9 * (sample_non_null ⟨Dtype.object, cells⟩).length <
            10 * (sample_non_null ⟨Dtype.object, cells⟩).countP looks_like_date then
        sqlType "date"
      else if 0 < (sample_non_null ⟨Dtype.object, cells⟩).length ∧
          9 * (sample_non_null ⟨Dtype.object, cells⟩).length <
            10 * (sample_non_null ⟨Dtype.object, cells⟩).countP looks_like_time then
        sqlType "time"
      else sqlType "string") := rfl

/-- Ten text values of which exactly nine are date-like: a 90% match
rate. -/
def date90 : List String :=
  ["2024-01-05", "2024-01-06", "2024-01-07", "2024-01-08", "2024-01-09",
   "2024-02-01", "2024-02-02", "2024-02-03", "2024-02-04", "x"]

/-- C5 counterexample: a text column whose bounded sample has a date-like
match rate of exactly 90% (9 of 10) is NOT classified Date: the code
compares the mean STRICTLY (`> 0.9`), so the column falls through to
NVARCHAR(MAX), against the claim's "at least 90%". -/
theorem C5_counterexample :
    (read_csv_column date90 DEFAULT_NA).dtype = Dtype.object ∧
    (sample_non_null (read_csv_column date90 DEFAULT_NA)).length = 10 ∧
    (sample_non_null (read_csv_column date90 DEFAULT_NA)).countP
      looks_like_date = 9 ∧
    detect_type (read_csv_column date90 DEFAULT_NA) = "NVARCHAR(MAX)" ∧
    detect_type (read_csv_column date90 DEFAULT_NA) ≠ "DATE" := by
  refine ⟨by decide, by decide, by decide, by decide, by decide⟩

/-- C5 amended: a text column reaching the heuristic branch whose bounded
sample is nonempty and matches the date pattern at a rate STRICTLY above
90% is classified Date. -/
theorem C5_date_strictly_above (s : Series) (h1 : s.dtype = Dtype.object)
    (h2 : 0 < (sample_non_null s).length)
    (h3 : 9 * (sample_non_null s).length <
      10 * (sample_non_null s).countP looks_like_date) :
    detect_type s = "DATE" := by
  obtain ⟨dt, cells⟩ := s
  change dt = Dtype.object at h1
  subst h1
  rw [detect_type_object, if_pos ⟨h2, h3⟩]
  rfl

/-- C5 amended, witnessed at a one-value date-like column. -/
theorem C5_date_strictly_above_witness :
    detect_type (read_csv_column ["2024-01-05"] DEFAULT_NA) = "DATE" :=
  C5_date_strictly_above (read_csv_column ["2024-01-05"] DEFAULT_NA)
    (by decide) (by decide) (by decide)

/-- C4 amended, witnessed at the all-null column `["NA", ""]`. -/
theorem C4_empty_and_all_null_witness :
    detect_type (read_csv_column [] DEFAULT_NA) = "NVARCHAR(MAX)" ∧
    detect_type (read_csv_column ["NA", ""] DEFAULT_NA) = "FLOAT" ∧
    detect_type (read_csv_column ["NA", ""] DEFAULT_NA) ≠ "DATE" ∧
    detect_type (read_csv_column ["NA", ""] DEFAULT_NA) ≠ "TIME" ∧
    detect_type (read_csv_column [] DEFAULT_NA) ≠ "DATE" ∧
    detect_type (read_csv_column [] DEFAULT_NA) ≠ "TIME" :=
  C4_empty_and_all_null ["NA", ""] DEFAULT_NA (by decide) (by decide)

/-- C2: every single quote of a text value is doubled in the rendered
`N'...'` literal — the per-character replacement doubles each occurrence,
so the quote count exactly doubles — and the rendering round-trips:
stripping the `N'` prefix and the closing quote and collapsing the
doubled quotes yields the original value. -/
theorem C2_quote_escaping (s : String) :
    quote_value (Cell.str s) = "N'" ++ String.mk (escList s.data) ++ "'" ∧
    (escList s.data).count squote = 2 * s.data.count squote ∧
    unescList (((quote_value (Cell.str s)).data.drop 2).dropLast) = s.data ∧
    String.mk (unescList (((quote_value (Cell.str s)).data.drop 2).dropLast))
      = s := by
  have hdata : (quote_value (Cell.str s)).data =
      'N' :: squote :: (escList s.data ++ [squote]) := by
    show (("N'" ++ String.mk (escList s.data)) ++ "'").data = _
    rw [String.data_append, String.data_append]
    rfl
  have h3 : unescList (((quote_value (Cell.str s)).data.drop 2).dropLast)
      = s.data := by
    rw [hdata]
    show unescList ((escList s.data ++ [squote]).dropLast) = s.data
    rw [List.dropLast_concat]
    exact unescList_escList s.data
  exact ⟨rfl, escList_count s.data, h3, by rw [h3]⟩

/-- C3 counterexample: a failure to read or decode the sample is NOT
swallowed — the read happens outside the try block — so the sniffing step
propagates the exception instead of returning the default comma,
contradicting the claim's "including failure to read or decode the
sample". -/
theorem C3_counterexample :
    sniff_delimiter (Except.error PyExn.unicodeDecodeError)
      (fun _ => Except.ok ',') = Except.error PyExn.unicodeDecodeError ∧
    (Except.error PyExn.unicodeDecodeError : Except PyExn Char) ≠
      Except.ok ',' := by
  exact ⟨rfl, by simp⟩

/-- C3 amended: once the sample has been read successfully, no exception
escapes — the sniffer's own failures are swallowed, falling back to the
comma, and a successful detection is returned as is. -/
theorem C3_sniff_failure_swallowed (sample : String)
    (sniff : String → Except PyExn Char) :
    sniff_delimiter (Except.ok sample) sniff =
      Except.ok (match sniff sample with
        | .ok d => d
        | .error _ => ',') := by
  cases h : sniff sample <;> simp [sniff_delimiter, h]

/-- C6: for N > 0 rows and batch size B > 0 the insert emitter produces
exactly ceil(N / B) INSERT blocks, each batch holds at most B value
tuples, and concatenating the batches in emission order reproduces the
original row list exactly. -/
theorem C6_insert_batching (rows : List (List Cell)) (table ci : String)
    (B : Nat) (hB : 0 < B) (hN : 0 < rows.length) :
    (insert_statements rows table ci B).length = (rows.length + B - 1) / B ∧
    (∀ b ∈ buildBatches B rows, b.length ≤ B) ∧
    (buildBatches B rows).flatten = rows := by
  have h0 : ([] : List (List Cell)).length < B := by simpa using hB
  refine ⟨?_, ?_, ?_⟩
  · rw [insert_statements, List.length_map, buildBatches,
      batchLoop_length B rows [] h0]
    simp only [List.length_nil, Nat.zero_add]
    rw [if_neg (by omega)]
  · intro b hb
    exact (batchLoop_mem B rows [] h0 b hb).1
  · exact batchLoop_flatten B rows [] h0

/-- Three one-cell rows, for witnessing the batching claim. -/
def rows3 : List (List Cell) := [[Cell.int 1], [Cell.int 2], [Cell.int 3]]

/-- C6 witnessed at three rows and batch size two: two blocks, the split
`[r1, r2] / [r3]`. -/
theorem C6_insert_batching_witness :
    (insert_statements rows3 "dbo.T" "[a]" 2).length = (rows3.length + 2 - 1) / 2 ∧
    (∀ b ∈ buildBatches 2 rows3, b.length ≤ 2) ∧
    (buildBatches 2 rows3).flatten = rows3 :=
  C6_insert_batching rows3 "dbo.T" "[a]" 2 (by decide) (by decide)

/-- C7: with an empty row set the assembled output still contains the
CREATE TABLE block and, in place of inserts, the no-rows comment;
`build_inserts` emits the empty string there, and no batch the emitter
ever forms is empty, so no empty `INSERT ... VALUES` statement can be
emitted. -/
theorem C7_empty_rows_output (df : DataFrame) (table src : String) (B : Nat) :
    (build_create_table df table).data <:+: (output_text df [] table src).data ∧
    ("-- No rows to insert.\n" : String).data <:+:
      (output_text df [] table src).data ∧
    build_inserts [] (df.cols.map (fun c => c.1)) table B = "" ∧
    (∀ (rows : List (List Cell)) (b : List (List Cell)), 0 < B →
      b ∈ buildBatches B rows → b ≠ []) := by
  refine ⟨?_, ?_, rfl, ?_⟩
  · refine ⟨("-- Generated for SQL Server (SSMS)\n" ++ "-- Source: " ++ src
      ++ "\n\n").data, ("\n\n" ++ "-- No rows to insert.\n").data, ?_⟩
    simp only [output_text, List.length_nil, String.data_append,
      List.append_assoc, if_true]
  · refine ⟨("-- Generated for SQL Server (SSMS)\n" ++ "-- Source: " ++ src
      ++ "\n\n" ++ build_create_table df table ++ "\n\n").data, [], ?_⟩
    simp only [output_text, List.length_nil, String.data_append,
      List.append_assoc, List.append_nil, if_true]
  · intro rows b hB hb
    exact (batchLoop_mem B rows [] (by simpa using hB) b hb).2

/-- A one-column frame, for witnessing the empty-output claim. -/
def df0 : DataFrame := ⟨[("id", ⟨.int64, []⟩)]⟩

/-- C7 witnessed at a one-column frame: the no-rows comment is in the
output, and a concrete batch of the emitter is nonempty. -/
theorem C7_empty_rows_output_witness :
    (("-- No rows to insert.\n" : String).data <:+:
      (output_text df0 [] "dbo.T" "x.csv").data) ∧
    ([[Cell.null]] : List (List Cell)) ≠ [] :=
  ⟨(C7_empty_rows_output df0 "dbo.T" "x.csv" 2).2.1,
   (C7_empty_rows_output df0 "dbo.T" "x.csv" 2).2.2.2 [[Cell.null]]
     [[Cell.null]] (by decide) (by decide)⟩

/-- C8 counterexample: `--limit 0` does not cap the rows at zero — the
flag value 0 is falsy in `if args.limit:`, so `head` is never called and
every row is processed. -/
theorem C8_counterexample :
    apply_limit (some 0) [[Cell.int 1]] = [[Cell.int 1]] ∧
    ¬((apply_limit (some 0) [[Cell.int 1]]).length ≤ 0) := by
  exact ⟨rfl, by decide⟩

/-- C8 amended: a POSITIVE limit N caps the processed rows at N; a limit
of 0 is treated as no limit at all, leaving every row. -/
theorem C8_positive_limit_caps (n : Int) (rows : List (List Cell))
    (hn : 0 < n) :
    (apply_limit (some n) rows).length ≤ n.toNat ∧
    (∀ rows2 : List (List Cell), apply_limit (some 0) rows2 = rows2) := by
  constructor
  · have hne : n ≠ 0 := by omega
    have h0 : 0 ≤ n := le_of_lt hn
    simp only [apply_limit, if_pos hne, df_head, if_pos h0]
    exact List.length_take_le _ _
  · intro rows2
    rfl

/-- C8 amended, witnessed at limit 2 over three rows. -/
theorem C8_positive_limit_caps_witness :
    (apply_limit (some 2) rows3).length ≤ (2 : Int).toNat ∧
    (∀ rows2 : List (List Cell), apply_limit (some 0) rows2 = rows2) :=
  C8_positive_limit_caps 2 rows3 (by decide)

/-- Characters of a rendered integer: never a dot, a quote or an N. -/
theorem intStr_plain (n : Int) :
    '.' ∉ (intStr n).data ∧ squote ∉ (intStr n).data ∧
      'N' ∉ (intStr n).data := by
  refine ⟨?_, ?_, ?_⟩ <;> intro hmem <;>
    rcases intStr_chars n _ hmem with h | h <;> exact absurd h (by decide)

/-- C9 counterexample: in an all-integer frame the Integer-column cell 1
reaches `quote_value` as `np.int64`, fails the `isinstance(val, (int,
float))` guard and is emitted as the QUOTED literal `N'1'`; in an
int64+float64 frame the cell upcasts to `np.float64` and is emitted as
`1.0`, WITH a decimal point — both against the claim's universal
bare-number rendering. -/
theorem C9_counterexample :
    detect_type (read_csv_column ["1"] DEFAULT_NA) = "BIGINT" ∧
    (read_csv_column ["1"] DEFAULT_NA).cells = [Cell.int 1] ∧
    rowDtype [Dtype.int64] = Dtype.int64 ∧
    iterrows_val (rowDtype [Dtype.int64]) (Cell.int 1) = Cell.npInt 1 ∧
    quote_value (iterrows_val (rowDtype [Dtype.int64]) (Cell.int 1))
      = "N'1'" ∧
    squote ∈ (quote_value (iterrows_val (rowDtype [Dtype.int64])
      (Cell.int 1))).data ∧
    rowDtype [Dtype.int64, Dtype.float64] = Dtype.float64 ∧
    quote_value (iterrows_val (rowDtype [Dtype.int64, Dtype.float64])
      (Cell.int 1)) = "1.0" ∧
    '.' ∈ (quote_value (iterrows_val (rowDtype [Dtype.int64, Dtype.float64])
      (Cell.int 1))).data := by
  refine ⟨by decide, by decide, by decide, by decide, by decide, by decide,
    by decide, by decide, by decide⟩

/-- C9 amended: cells of an Integer-inferred (BIGINT) column are stored
ints, and how they render depends on the frame's iterrows row dtype: with
an object (text) column present the value is boxed to a Python int and
renders bare — no decimal point, no quote, no N prefix; in an all-integer
frame it stays `np.int64`, fails the isinstance guard and renders as a
quoted `N'...'` literal; alongside a float column it upcasts to
`np.float64` and renders with a decimal point.  Cells of a Float-inferred
column are NaN or floats, and every frame holding a float column renders
the float's decimal representation through unchanged. -/
theorem C9_numeric_rendering :
    (∀ s : Series, WFSeries s → detect_type s = "BIGINT" →
      ∀ c ∈ s.cells, ∃ n : Int, c = Cell.int n) ∧
    (∀ (dts : List Dtype) (n : Int), Dtype.object ∈ dts →
      quote_value (iterrows_val (rowDtype dts) (Cell.int n)) = intStr n ∧
      '.' ∉ (intStr n).data ∧ squote ∉ (intStr n).data ∧
      'N' ∉ (intStr n).data) ∧
    (∀ (dts : List Dtype) (n : Int), dts ≠ [] →
      (∀ d ∈ dts, d = Dtype.int64) →
      quote_value (iterrows_val (rowDtype dts) (Cell.int n)) =
        "N'" ++ String.mk (escList (intStr n).data) ++ "'") ∧
    (∀ (dts : List Dtype) (n : Int), Dtype.object ∉ dts →
      Dtype.datetime64 ∉ dts → Dtype.float64 ∈ dts →
      quote_value (iterrows_val (rowDtype dts) (Cell.int n)) =
        intStr n ++ ".0" ∧
      '.' ∈ (intStr n ++ ".0").data) ∧
    (∀ s : Series, WFSeries s → detect_type s = "FLOAT" →
      ∀ c ∈ s.cells, c = Cell.null ∨ ∃ r : String, c = Cell.float r) ∧
    (∀ (dts : List Dtype) (r : String), Dtype.float64 ∈ dts →
      quote_value (iterrows_val (rowDtype dts) (Cell.float r)) = r) := by
  refine ⟨?_, ?_, ?_, ?_, ?_, ?_⟩
  · rintro ⟨dt, cells⟩ hwf hdet c hc
    cases dt with
    | int64 =>
      have hm := hwf c hc
      cases c with
      | int n => exact ⟨n, rfl⟩
      | null => simp [cellMatches] at hm
      | float r => simp [cellMatches] at hm
      | bool b => simp [cellMatches] at hm
      | str s => simp [cellMatches] at hm
      | npInt n => simp [cellMatches] at hm
      | npFloat r => simp [cellMatches] at hm
      | npBool b => simp [cellMatches] at hm
    | float64 =>
      have h2 : detect_type ⟨Dtype.float64, cells⟩ = "FLOAT" := rfl
      rw [h2] at hdet
      exact absurd hdet (by decide)
    | bool =>
      have h2 : detect_type ⟨Dtype.bool, cells⟩ = "BIT" := rfl
      rw [h2] at hdet
      exact absurd hdet (by decide)
    | datetime64 =>
      have h2 : detect_type ⟨Dtype.datetime64, cells⟩ = "DATETIME2" := rfl
      rw [h2] at hdet
      exact absurd hdet (by decide)
    | object =>
      rw [detect_type_object] at hdet
      split at hdet
      · exact absurd hdet (by decide)
      · split at hdet
        · exact absurd hdet (by decide)
        · exact absurd hdet (by decide)
  · intro dts n hobj
    have hne : dts.isEmpty = false := by
      simpa [List.isEmpty_iff] using List.ne_nil_of_mem hobj
    have hrd : rowDtype dts = Dtype.object := by
      simp [rowDtype, hne, hobj]
    rw [hrd]
    obtain ⟨h1, h2, h3⟩ := intStr_plain n
    exact ⟨rfl, h1, h2, h3⟩
  · intro dts n hne hall
    have h1 : dts.isEmpty = false := by simpa [List.isEmpty_iff] using hne
    have hobj : Dtype.object ∉ dts := fun hm =>
      absurd (hall _ hm) (by decide)
    have hdt : Dtype.datetime64 ∉ dts := fun hm =>
      absurd (hall _ hm) (by decide)
    have hfl : Dtype.float64 ∉ dts := fun hm =>
      absurd (hall _ hm) (by decide)
    have hint : Dtype.int64 ∈ dts := by
      cases dts with
      | nil => exact absurd rfl hne
      | cons d ds =>
        rw [← hall d (List.mem_cons_self d ds)]
        exact List.mem_cons_self d ds
    have hrd : rowDtype dts = Dtype.int64 := by
      simp [rowDtype, h1, hobj, hdt, hfl, hint]
    rw [hrd]
    rfl
  · intro dts n hobj hdt hfl
    have h1 : dts.isEmpty = false := by
      simpa [List.isEmpty_iff] using List.ne_nil_of_mem hfl
    have hrd : rowDtype dts = Dtype.float64 := by
      simp [rowDtype, h1, hobj, hdt, hfl]
    rw [hrd]
    refine ⟨rfl, ?_⟩
    simp [String.data_append]
  · rintro ⟨dt, cells⟩ hwf hdet c hc
    cases dt with
    | float64 =>
      have hm := hwf c hc
      cases c with
      | null => exact Or.inl rfl
      | float r => exact Or.inr ⟨r, rfl⟩
      | int n => simp [cellMatches] at hm
      | bool b => simp [cellMatches] at hm
      | str s => simp [cellMatches] at hm
      | npInt n => simp [cellMatches] at hm
      | npFloat r => simp [cellMatches] at hm
      | npBool b => simp [cellMatches] at hm
    | int64 =>
      have h2 : detect_type ⟨Dtype.int64, cells⟩ = "BIGINT" := rfl
      rw [h2] at hdet
      exact absurd hdet (by decide)
    | bool =>
      have h2 : detect_type ⟨Dtype.bool, cells⟩ = "BIT" := rfl
      rw [h2] at hdet
      exact absurd hdet (by decide)
    | datetime64 =>
      have h2 : detect_type ⟨Dtype.datetime64, cells⟩ = "DATETIME2" := rfl
      rw [h2] at hdet
      exact absurd hdet (by decide)
    | object =>
      rw [detect_type_object] at hdet
      split at hdet
      · exact absurd hdet (by decide)
      · split at hdet
        · exact absurd hdet (by decide)
        · exact absurd hdet (by decide)
  · intro dts r hfl
    have h1 : dts.isEmpty = false := by
      simpa [List.isEmpty_iff] using List.ne_nil_of_mem hfl
    by_cases hobj : Dtype.object ∈ dts ∨ Dtype.datetime64 ∈ dts
    · have hrd : rowDtype dts = Dtype.object := by
        rcases hobj with h | h <;> simp [rowDtype, h1, h]
      rw [hrd]
      rfl
    · push_neg at hobj
      have hrd : rowDtype dts = Dtype.float64 := by
        simp [rowDtype, h1, hobj.1, hobj.2, hfl]
      rw [hrd]
      rfl

/-- C9 amended, witnessed across the three frame shapes (int+object,
all-int, int+float) and a float frame. -/
theorem C9_numeric_rendering_witness :
    (quote_value (iterrows_val (rowDtype [Dtype.int64, Dtype.object])
        (Cell.int 7)) = intStr 7 ∧
      '.' ∉ (intStr 7).data ∧ squote ∉ (intStr 7).data ∧
      'N' ∉ (intStr 7).data) ∧
    quote_value (iterrows_val (rowDtype [Dtype.int64]) (Cell.int 7)) =
      "N'" ++ String.mk (escList (intStr 7).data) ++ "'" ∧
    (quote_value (iterrows_val (rowDtype [Dtype.int64, Dtype.float64])
        (Cell.int 7)) = intStr 7 ++ ".0" ∧
      '.' ∈ (intStr 7 ++ ".0").data) ∧
    (∃ n : Int, Cell.int 7 = Cell.int n) ∧
    (Cell.float "2.5" = Cell.null ∨
      ∃ r : String, Cell.float "2.5" = Cell.float r) ∧
    quote_value (iterrows_val (rowDtype [Dtype.float64]) (Cell.float "2.5"))
      = "2.5" :=
  ⟨C9_numeric_rendering.2.1 [Dtype.int64, Dtype.object] 7 (by decide),
   C9_numeric_rendering.2.2.1 [Dtype.int64] 7 (by decide)
     (by decide),
   C9_numeric_rendering.2.2.2.1 [Dtype.int64, Dtype.float64] 7 (by decide)
     (by decide) (by decide),
   C9_numeric_rendering.1 (read_csv_column ["7", "8"] DEFAULT_NA)
     (by decide) (by decide) (Cell.int 7) (by decide),
   C9_numeric_rendering.2.2.2.2.1 (read_csv_column ["2.5", "NA"] DEFAULT_NA)
     (by decide) (by decide) (Cell.float "2.5") (by decide),
   C9_numeric_rendering.2.2.2.2.2 [Dtype.float64] "2.5" (by decide)⟩

/-- A table name holding a single quote. -/
def tq : String := "dbo.O'Brien"

/-- C10: both emitters splice the table name verbatim — the conditional
drop check (including its `N'...'` literal), the CREATE TABLE header and
the INSERT header all use the raw name, with neither bracket-quoting nor
quote doubling — and for the name `dbo.O'Brien`, which both quotings
would change, the emitted script contains the raw `N'dbo.O'Brien'` text,
its quote unescaped inside the string literal. -/
theorem C10_table_name_verbatim :
    (∀ df t, build_create_table df t =
      "IF OBJECT_ID(N'" ++ t ++ "', N'U') IS NOT NULL DROP TABLE " ++ t ++
        ";\nGO\nCREATE TABLE " ++ t ++ " (\n    " ++ cols_joined df ++
        "\n);\nGO") ∧
    (∀ t ci batch, insert_statement t ci batch =
      "INSERT INTO " ++ t ++ " (" ++ ci ++ ") VALUES\n" ++
        String.intercalate ",\n" (batch.map rowTuple) ++ ";\nGO") ∧
    bracket_ident tq ≠ tq ∧
    String.mk (escList tq.data) ≠ tq ∧
    ("N'" ++ tq ++ "'").data <:+: (build_create_table ⟨[]⟩ tq).data := by
  exact ⟨fun df t => rfl, fun t ci batch => rfl, by decide, by decide,
    by decide⟩

end Csv2Sql
